import Mathlib

/-
Verification of the Jscrambler CLI job-orchestration pipeline
(src/packages/jscrambler-cli/src/index.js).

The workflows are embedded shallowly: every remote call and every console
output of the source is recorded as an event in an explicit trace, and each
async function becomes a function into the writer-plus-exceptions monad
M a = Except Err a x List Ev.  The remote service and the local file system
are represented by an Env record that supplies the response to each call
site, so one run of a workflow is a pure function of (config, Env).

JavaScript truthiness is mirrored where the source relies on it: an absent
field is an Option that is none, a string is truthy when nonempty
(strTruthy), arrays are truthy even when empty (Option.isSome), and the
guard on filesSrc checks nonemptiness because the source tests
filesSrc.length.
-/

set_option autoImplicit false
set_option linter.unusedVariables false

namespace Jscrambler

/-- Inline source descriptor, an element of the `sources` option of
`updateApplicationSources`. -/
structure SourceItem where
  filename : String
  content : String
  deriving DecidableEq, Repr

/-- Aggregated per-source error, as built in `protectAndDownload`
(lines 430-441 of index.js): the filename of the source is paired with
each of its error messages. -/
structure SourceError where
  filename : String
  message : String
  deriving DecidableEq, Repr

/-- One entry of `protection.sources` in the polled protection snapshot:
a filename and its `errorMessages`. -/
structure PSource where
  filename : String
  errorMessages : List String
  deriving DecidableEq, Repr

/-- One entry of `protection.deprecations`.  The source checks the
truthiness of `type` and `entity`; empty strings model absent fields. -/
structure Deprecation where
  type : String
  entity : String
  deriving DecidableEq, Repr

/-- The body of `applicationProtection.data.applicationProtection` as the
orchestrator reads it after polling. -/
structure Protection where
  state : String
  errorMessage : String := ""
  bail : Bool := true
  growthWarning : Bool := false
  deprecations : List Deprecation := []
  sources : List PSource := []
  deriving DecidableEq, Repr

/-- One response of `getApplicationProtection` during polling: the optional
top-level GraphQL `errors` field (line 806) and the protection payload. -/
structure ProtSnapshot where
  errors : Option (List String) := none
  protection : Protection
  deriving DecidableEq, Repr

/-- The `data` part of a profiling-run response (`appProfiling.data`). -/
structure Profiling where
  id : String
  state : String
  deriving DecidableEq, Repr

/-- An element of `instrumentation.data.instrumentationErrors`. -/
structure InstrErr where
  message : String
  fileName : String
  lineNumber : Nat
  deriving DecidableEq, Repr

/-- The `data` part of a profiling-run snapshot read by
`pollInstrumentation`. -/
structure InstrData where
  state : String
  id : String := ""
  instrumentationErrors : List InstrErr := []
  deriving DecidableEq, Repr

/-- The generic response shape inspected by `errorHandler`: a top-level
`errors` array, an optional `data.errors` array and an optional `message`.
An empty `errors` array does not trigger the handler (the source checks
`res.errors.length`), while a present `data.errors` does even when empty
(the source only checks its truthiness). -/
structure Res where
  errors : List String := []
  dataErrors : Option (List String) := none
  message : Option String := none
  deriving DecidableEq, Repr

/-- One response of `getInstrumentation` during polling. -/
structure InstrSnapshot where
  res : Res := {}
  data : InstrData
  deriving DecidableEq, Repr

/-- The uploaded source bundle built by `updateApplicationSources`
(lines 158-162 of index.js). -/
structure Bundle where
  content : String
  filename : String
  extension : String
  deriving DecidableEq, Repr

/-- Modelled from the spec: the archive codec of `./zip` is not under src/,
so an archive handle only records what was collected into it - `zipSources`
adds each inline `(filename, content)` pair verbatim and `zip` collects the
resolved paths together with the working directory.  Producing the actual
bytes and their base64 encoding is left to the `generateBase64` field of
the environment. -/
inductive ArchiveHandle where
  | ofSources (entries : List SourceItem)
  | ofPaths (paths : List String) (cwd : Option String)
  deriving DecidableEq, Repr

/-- One transformation parameter after `normalizeParameters`. -/
structure Param where
  name : String
  options : String
  deriving DecidableEq, Repr

/-- The `params` configuration value: either already an array of
parameters or an object mapping names to options. -/
inductive ParamsSpec where
  | arr (ps : List Param)
  | obj (kvs : List (String × String))
  deriving DecidableEq, Repr

/-- The `updateData` object assembled in `protectAndDownload`
(lines 306-350 of index.js); `_id` is tracked separately as the
application id. -/
structure UpdateData where
  parameters : Option (List Param) := none
  areSubscribersOrdered : Option Bool := none
  applicationTypes : Option (List String) := none
  useRecommendedOrder : Option Bool := none
  languageSpecifications : Option (List String) := none
  sourceMaps : Option Bool := none
  useProfilingData : Option Bool := none
  profilingDataMode : Option String := none
  useAppClassification : Option Bool := none
  browsers : Option (List String) := none
  debugMode : Bool := false
  tolerateMinification : Option Bool := none
  codeHardeningThreshold : Option Nat := none
  deriving DecidableEq, Repr

/-- The options passed to `createApplicationProtection` (line 384 of
index.js): the explicit fields spread together with `updateData`. -/
structure ProtectionOptions where
  bail : Bool
  randomizationSeed : Option Nat := none
  tolerateMinification : Option Bool := none
  source : Option Bundle := none
  inputSymbolTable : Option String := none
  update : UpdateData := {}
  deriving DecidableEq, Repr

/-- The effective configuration after `buildFinalConfig`.  The defaults
merge of `./config` is modelled as the identity: per the spec the default
configuration supplies neither `applicationId` nor `filesDest`, the two
fields whose absence the claims are about. -/
structure Config where
  applicationId : Option String := none
  filesDest : Option String := none
  filesSrc : Option (List String) := none
  sources : Option (List SourceItem) := none
  cwd : Option String := none
  params : Option ParamsSpec := none
  applicationTypes : Option (List String) := none
  languageSpecifications : Option (List String) := none
  sourceMaps : Option Bool := none
  randomizationSeed : Option Nat := none
  areSubscribersOrdered : Option Bool := none
  useRecommendedOrder : Option Bool := none
  bail : Option Bool := none
  debugMode : Option Bool := none
  tolerateMinification : Option Bool := none
  codeHardeningThreshold : Option Nat := none
  useProfilingData : Option Bool := none
  profilingDataMode : Option String := none
  useAppClassification : Option Bool := none
  browsers : Option (List String) := none
  removeProfilingData : Bool := false
  skipSources : Bool := false
  inputSymbolTable : Option String := none
  stream : Bool := true
  deriving DecidableEq, Repr

/-- The errors raised by the orchestrator.  Each constructor corresponds
to one `throw` site of index.js; `noMoreSnapshots` is a model artifact
marking that the fetch oracle ran out of responses, i.e. the source loop
would keep polling. -/
inductive Err where
  | required (field : String)
  | readyProfiling
  | remote (msg : String)
  | graphqlQueryError
  | remoteMessage (msg : String)
  | fetch (statusCode : Nat)
  | protectionFailed
  | protectionCanceled
  | bailFailed
  | noActiveProfiling
  | noMoreSnapshots
  deriving DecidableEq, Repr

/-- Observable events of one workflow run: each remote call, each local
file-system access and each console output becomes one event. -/
inductive Ev where
  | getProfilingRun
  | patchProfilingRun (state : String)
  | postProfilingRun
  | removeSource
  | addSource (bundle : Bundle)
  | updateApplication (u : UpdateData)
  | createApplicationProtection (o : ProtectionOptions)
  | getApplicationProtection
  | getInstrumentation
  | download
  | downloadInstrumented
  | sleep (ms : Nat)
  | unzipFiles
  | fsGlob (pattern : String)
  | fsZip (paths : List String)
  | fsReadFile (path : String)
  | outLog (s : String)
  | outWarn (s : String)
  | outErr (s : String)
  | outGlobalError (msg : String)
  | outSourcesErrors (errs : List SourceError)
  | outNonFatal (e : SourceError)
  | outGrowthWarning
  | outDeprecationUnmaintained (type entity : String)
  | outDeprecationDeprecated (type entity : String)
  | outAlready (label : String)
  | outSet (label : String)
  deriving DecidableEq, Repr

/-- A trace is the ordered list of events of one run. -/
abbrev Trace := List Ev

/-- The effect monad of the embedding: a run yields a result (or the
raised error) together with the trace of its events. -/
def M (α : Type) : Type := Except Err α × Trace

/-- Return without effects. -/
def M.pure {α : Type} (a : α) : M α := (Except.ok a, [])

/-- Sequencing: the second computation runs only when the first one did
not raise, and the traces concatenate in order. -/
def M.bind {α β : Type} (m : M α) (f : α → M β) : M β :=
  match m with
  | (Except.ok a, t) =>
    match f a with
    | (r, t') => (r, t ++ t')
  | (Except.error e, t) => (Except.error e, t)

instance : Monad M where
  pure := M.pure
  bind := M.bind

/-- Record one event. -/
def emit (e : Ev) : M Unit := (Except.ok (), [e])

/-- Record a batch of events in order. -/
def emitAll (es : Trace) : M Unit := (Except.ok (), es)

/-- Raise an error. -/
def throwE {α : Type} (e : Err) : M α := (Except.error e, [])

/-- The environment: the response each remote call site receives, plus
the local collaborators (glob expansion, file reads, archive encoding). -/
structure Env where
  profilingFetch : Except Nat Profiling := Except.error 404
  removeSourceRes : Res := {}
  addSourceRes : Res := {}
  updateApplicationRes : Res := {}
  createApplicationProtectionRes : Res := {}
  createdProtectionId : String := ""
  protSnapshots : List ProtSnapshot := []
  downloadRes : Res := {}
  startInstrRes : Res := {}
  instrSnapshots : List InstrSnapshot := []
  downloadInstrRes : Res := {}
  generateBase64 : ArchiveHandle → String := fun _ => ""
  globSync : String → List String := fun _ => []
  readFileSync : String → String := fun _ => ""

/-- JavaScript truthiness of an optional string: present and nonempty. -/
def strTruthy : Option String → Bool
  | some s => s != ""
  | none => false

/-- The guard `filesSrc && filesSrc.length` of index.js. -/
def filesSrcNonempty : Option (List String) → Bool
  | some l => decide (0 < l.length)
  | none => false

/-- The guard `appProfiling && appProfiling.data.state === 'READY'`
(line 101 of index.js). -/
def profilingReady : Option Profiling → Bool
  | some p => p.state == "READY"
  | none => false

/-- `errorHandler` of index.js: throw on the first top-level error, print
then throw when `data.errors` is present, throw on a `message`. -/
def errorHandler (r : Res) : M Unit :=
  match r.errors with
  | e :: _ => throwE (Err.remote e)
  | [] =>
    match r.dataErrors with
    | some es => M.bind (emitAll (es.map Ev.outErr)) fun _ => throwE Err.graphqlQueryError
    | none =>
      match r.message with
      | some m => throwE (Err.remoteMessage m)
      | none => M.pure ()

/-- `normalizeParameters` of index.js: an object becomes the list of its
`(name, options)` entries, an array is kept. -/
def normalizeParameters : ParamsSpec → List Param
  | ParamsSpec.arr ps => ps
  | ParamsSpec.obj kvs => kvs.map fun kv => { name := kv.1, options := kv.2 }

/-- `Array.isArray(params)`. -/
def paramsIsArr : ParamsSpec → Bool
  | ParamsSpec.arr _ => true
  | ParamsSpec.obj _ => false

/-- `Object.keys(params).length` is nonzero. -/
def paramsNonempty : ParamsSpec → Bool
  | ParamsSpec.arr l => decide (0 < l.length)
  | ParamsSpec.obj l => decide (0 < l.length)

/-- The guard `params && Object.keys(params).length` (line 313). -/
def paramsTruthy : Option ParamsSpec → Bool
  | some p => paramsNonempty p
  | none => false

/-- The options record passed to `updateApplicationSources`. -/
structure UpdateSourcesOpts where
  sources : Option (List SourceItem) := none
  filesSrc : Option (List String) := none
  cwd : Option String := none
  appProfiling : Option Profiling := none

/-- `updateApplicationSources` of index.js (lines 94-170): when sources
are to be replaced, refuse if a READY profiling run exists, otherwise
remove the current sources; then zip either the glob-expanded `filesSrc`
or the inline `sources`, and when a zip was produced upload it wrapped as
an `application.zip` bundle. -/
def updateApplicationSources (env : Env) (opts : UpdateSourcesOpts) :
    M (Option Bundle) := do
  if opts.sources.isSome || filesSrcNonempty opts.filesSrc then
    if profilingReady opts.appProfiling then
      throwE Err.readyProfiling
    else do
      emit Ev.removeSource
      errorHandler env.removeSourceRes
  else
    pure ()
  let zipped ←
    if filesSrcNonempty opts.filesSrc then do
      let pats := opts.filesSrc.getD []
      emitAll (pats.map Ev.fsGlob)
      let expanded := pats.foldl (fun acc p => acc ++ env.globSync p) []
      emit (Ev.fsZip expanded)
      pure (some (ArchiveHandle.ofPaths expanded opts.cwd))
    else if opts.sources.isSome then
      pure (some (ArchiveHandle.ofSources (opts.sources.getD [])))
    else
      pure (none : Option ArchiveHandle)
  match zipped with
  | some h => do
    let source : Bundle :=
      { content := env.generateBase64 h
        filename := "application.zip"
        extension := "zip" }
    emit (Ev.addSource source)
    errorHandler env.addSourceRes
    pure (some source)
  | none => pure none

/-- The `getApplicationProfiling(...).catch(e => if e.statusCode !== 404
throw e)` pattern used at lines 284-289, 632-636 and 1002-1008: a 404
yields no run, any other fetch error is re-raised. -/
def fetchProfilingCaught (env : Env) : M (Option Profiling) := do
  emit Ev.getProfilingRun
  match env.profilingFetch with
  | Except.ok p => pure (some p)
  | Except.error sc =>
    if sc != 404 then throwE (Err.fetch sc) else pure none

/-- A protection state on which the polling loop keeps going
(line 814-818 of index.js). -/
def nonTerminalState (st : String) : Bool :=
  st != "finished" && st != "errored" && st != "canceled"

/-- `pollProtection` of index.js (lines 798-830), recursing over the
successive `getApplicationProtection` responses supplied by the oracle:
a snapshot with top-level errors aborts, a non-terminal state sleeps
500 ms and repeats, `canceled` raises, and any other terminal state
(`finished` or `errored`) returns the protection. -/
def pollProtection : List ProtSnapshot → M Protection
  | [] => throwE Err.noMoreSnapshots
  | s :: rest =>
    M.bind (emit Ev.getApplicationProtection) fun _ =>
      match s.errors with
      | some _ =>
        M.bind (emit (Ev.outLog "Error polling protection")) fun _ =>
          throwE Err.protectionFailed
      | none =>
        if nonTerminalState s.protection.state then
          M.bind (emit (Ev.sleep 500)) fun _ => pollProtection rest
        else if s.protection.state == "canceled" then
          throwE Err.protectionCanceled
        else
          M.pure s.protection

/-- The message built for one instrumentation error at line 785. -/
def instrErrMessage (e : InstrErr) : String :=
  e.message ++ " at " ++ e.fileName ++ ":" ++ toString e.lineNumber

/-- An instrumentation state on which the polling loop keeps going
(the `default` branch of the switch at lines 779-794). -/
def nonTerminalInstrState (st : String) : Bool :=
  st != "DELETED" && st != "FAILED_INSTRUMENTATION" &&
    st != "FINISHED_INSTRUMENTATION"

/-- `pollInstrumentation` of index.js (lines 773-797): `DELETED` raises a
cancellation, `FAILED_INSTRUMENTATION` appends the structured per-file
errors and runs them through `errorHandler`, `FINISHED_INSTRUMENTATION`
returns the snapshot, anything else sleeps 500 ms and repeats. -/
def pollInstrumentation : List InstrSnapshot → M InstrSnapshot
  | [] => throwE Err.noMoreSnapshots
  | s :: rest =>
    M.bind (emit Ev.getInstrumentation) fun _ =>
      if s.data.state == "DELETED" then
        throwE Err.protectionCanceled
      else if s.data.state == "FAILED_INSTRUMENTATION" then
        let s' : InstrSnapshot :=
          { s with
            res := { s.res with
              errors := s.res.errors ++
                s.data.instrumentationErrors.map instrErrMessage } }
        M.bind (errorHandler s'.res) fun _ => M.pure s'
      else if s.data.state == "FINISHED_INSTRUMENTATION" then
        M.pure s
      else
        M.bind (emit (Ev.sleep 500)) fun _ => pollInstrumentation rest

/-- The `updateData` assembled at lines 306-350 of index.js, written as
the net effect of the sequential conditional assignments: `parameters`
and a provisional `areSubscribersOrdered` come from a nonempty `params`,
the explicit `areSubscribersOrdered` option overrides the provisional
value, and the remaining fields copy the corresponding options when
supplied. -/
def buildUpdateData (cfg : Config) : UpdateData :=
  { parameters :=
      if paramsTruthy cfg.params then
        some (normalizeParameters (cfg.params.getD (ParamsSpec.arr [])))
      else none
    areSubscribersOrdered :=
      match cfg.areSubscribersOrdered with
      | some b => some b
      | none =>
        if paramsTruthy cfg.params then
          some (paramsIsArr (cfg.params.getD (ParamsSpec.arr [])))
        else none
    applicationTypes := cfg.applicationTypes
    useRecommendedOrder := cfg.useRecommendedOrder
    languageSpecifications := cfg.languageSpecifications
    sourceMaps := cfg.sourceMaps
    useProfilingData := cfg.useProfilingData
    profilingDataMode := cfg.profilingDataMode
    useAppClassification := cfg.useAppClassification
    browsers := cfg.browsers
    debugMode := cfg.debugMode.getD false
    tolerateMinification := cfg.tolerateMinification
    codeHardeningThreshold := cfg.codeHardeningThreshold }

/-- The condition of lines 352-358 of index.js deciding whether
`updateApplication` is called: note that `sourceMaps` is not part of it. -/
def shouldUpdate (u : UpdateData) : Bool :=
  u.parameters.isSome || u.applicationTypes.isSome ||
    u.languageSpecifications.isSome || u.browsers.isSome ||
      u.areSubscribersOrdered.isSome

/-- The aggregation of per-source errors at lines 430-441 of index.js. -/
def sourcesErrors (p : Protection) : List SourceError :=
  p.sources.foldl
    (fun acc s =>
      acc ++ s.errorMessages.map fun m => { filename := s.filename, message := m })
    []

/-- The deprecation warnings printed at lines 416-428 of index.js. -/
def deprecationEvents (ds : List Deprecation) : Trace :=
  ds.filterMap fun d =>
    if d.type == "Transformation" then
      some (Ev.outDeprecationUnmaintained d.type d.entity)
    else if d.type != "" && d.entity != "" then
      some (Ev.outDeprecationDeprecated d.type d.entity)
    else
      none

/-- `protectAndDownload` of index.js (lines 213-485).  The construction of
the client, `buildFinalConfig` and `getProtectionDefaultFragments` perform
no modelled effect; the introspection filter `intoObjectType` is the
identity on the modelled fields, which all belong to the Application
type. -/
def protectAndDownload (cfg : Config) (destCallback : Bool) (env : Env) :
    M String := do
  let bail := cfg.bail.getD true
  let filesSrc := if cfg.sources.isSome then none else cfg.filesSrc
  let filesDest := if destCallback then none else cfg.filesDest
  if !strTruthy cfg.applicationId then
    throwE (Err.required "applicationId")
  else if !strTruthy filesDest && !destCallback then
    throwE (Err.required "filesDest")
  else do
    let source ←
      if !cfg.skipSources then do
        let appProfiling0 ← fetchProfilingCaught env
        let appProfiling ←
          if appProfiling0.isSome && cfg.removeProfilingData then do
            emit (Ev.patchProfilingRun "DELETED")
            pure (appProfiling0.map fun p => { p with state := "DELETED" })
          else
            pure appProfiling0
        updateApplicationSources env
          { sources := cfg.sources
            filesSrc := filesSrc
            cwd := cfg.cwd
            appProfiling := appProfiling }
      else do
        emit (Ev.outLog "Update source files SKIPPED")
        pure none
    let updateData := buildUpdateData cfg
    if shouldUpdate updateData then do
      emit (Ev.updateApplication updateData)
      errorHandler env.updateApplicationRes
    else
      pure ()
    let baseOpts : ProtectionOptions :=
      { bail := bail
        randomizationSeed := cfg.randomizationSeed
        tolerateMinification := cfg.tolerateMinification
        source := source
        inputSymbolTable := cfg.inputSymbolTable
        update := updateData }
    let protectionOptions ←
      match cfg.inputSymbolTable with
      | some p => do
        emit (Ev.fsReadFile p)
        pure { baseOpts with inputSymbolTable := some (env.readFileSync p) }
      | none => pure baseOpts
    emit (Ev.createApplicationProtection protectionOptions)
    errorHandler env.createApplicationProtectionRes
    let protectionId := env.createdProtectionId
    let protection ← pollProtection env.protSnapshots
    if protection.growthWarning then
      emit Ev.outGrowthWarning
    else
      pure ()
    emitAll (deprecationEvents protection.deprecations)
    let errs := sourcesErrors protection
    if protection.state == "errored" then do
      emit (Ev.outGlobalError protection.errorMessage)
      if 0 < errs.length then
        emit (Ev.outSourcesErrors errs)
      else
        pure ()
      throwE Err.protectionFailed
    else if 0 < errs.length then
      if protection.bail then do
        emit (Ev.outSourcesErrors errs)
        throwE Err.bailFailed
      else
        emitAll (errs.map Ev.outNonFatal)
    else
      pure ()
    emit Ev.download
    errorHandler env.downloadRes
    emit Ev.unzipFiles
    emit (Ev.outLog protectionId)
    pure protectionId

/-- `startInstrumentation` of index.js (lines 1002-1014): probe for an
existing profiling run with the 404 carve-out, delete it when present
and post a new run. -/
def startInstrumentation (env : Env) : M Res := do
  let instrumentation ← fetchProfilingCaught env
  if instrumentation.isSome then
    emit (Ev.patchProfilingRun "DELETED")
  else
    pure ()
  emit Ev.postProfilingRun
  pure env.startInstrRes

/-- `instrumentAndDownload` of index.js (lines 492-595). -/
def instrumentAndDownload (cfg : Config) (destCallback : Bool) (env : Env) :
    M String := do
  let filesSrc := if cfg.sources.isSome then none else cfg.filesSrc
  let filesDest := if destCallback then none else cfg.filesDest
  if !strTruthy cfg.applicationId then
    throwE (Err.required "applicationId")
  else if !strTruthy filesDest && !destCallback then
    throwE (Err.required "filesDest")
  else do
    if !cfg.skipSources then do
      let _ ← updateApplicationSources env
        { sources := cfg.sources
          filesSrc := filesSrc
          cwd := cfg.cwd
          appProfiling := none }
      pure ()
    else
      emit (Ev.outLog "Update source files SKIPPED")
    let instrumentation ← startInstrumentation env
    errorHandler instrumentation
    let final ← pollInstrumentation env.instrSnapshots
    emit Ev.downloadInstrumented
    errorHandler env.downloadInstrRes
    emit Ev.unzipFiles
    emit (Ev.outWarn "DO NOT SEND THIS CODE TO PRODUCTION AS IT IS NOT PROTECTED")
    emit (Ev.outLog "instrumented")
    pure final.data.id

/-- `setProfilingState` of index.js (lines 604-657): fetch the current run
with the 404 carve-out, fail when absent, report when the requested state
already holds, otherwise patch the run to the requested state. -/
def setProfilingState (cfg : Config) (state label : String) (env : Env) :
    M Unit := do
  let instrumentation ← fetchProfilingCaught env
  match instrumentation with
  | none => throwE Err.noActiveProfiling
  | some instr =>
    if instr.state == state then
      emit (Ev.outAlready label)
    else do
      emit (Ev.patchProfilingRun state)
      emit (Ev.outSet label)

/-- Event classifiers used to count calls in a trace. -/
def isDownload : Ev → Bool
  | Ev.download => true
  | _ => false

def isUpdateApplication : Ev → Bool
  | Ev.updateApplication _ => true
  | _ => false

def isCreateProtection : Ev → Bool
  | Ev.createApplicationProtection _ => true
  | _ => false

def isSleep : Ev → Bool
  | Ev.sleep _ => true
  | _ => false

def isSleep500 : Ev → Bool
  | Ev.sleep n => n == 500
  | _ => false

def isPatchProfiling : Ev → Bool
  | Ev.patchProfilingRun _ => true
  | _ => false

def isRemoveSource : Ev → Bool
  | Ev.removeSource => true
  | _ => false

def isAddSource : Ev → Bool
  | Ev.addSource _ => true
  | _ => false

def isFsAccess : Ev → Bool
  | Ev.fsGlob _ => true
  | Ev.fsZip _ => true
  | Ev.fsReadFile _ => true
  | _ => false

/-- Number of download calls in a trace. -/
def downloads (t : Trace) : Nat := t.countP isDownload

/-- Number of `updateApplication` calls in a trace. -/
def updateCalls (t : Trace) : Nat := t.countP isUpdateApplication

/-- Number of `createApplicationProtection` calls in a trace. -/
def createCalls (t : Trace) : Nat := t.countP isCreateProtection

/-- Number of polling delays in a trace. -/
def sleepCalls (t : Trace) : Nat := t.countP isSleep

/-- Number of 500 ms polling delays in a trace. -/
def sleep500Calls (t : Trace) : Nat := t.countP isSleep500

/-- Number of profiling-run patches in a trace. -/
def patchCalls (t : Trace) : Nat := t.countP isPatchProfiling

/-- Number of source-removal calls in a trace. -/
def removeSourceCalls (t : Trace) : Nat := t.countP isRemoveSource

/-- Number of source-upload calls in a trace. -/
def addSourceCalls (t : Trace) : Nat := t.countP isAddSource

/-- Number of file-system accesses in a trace. -/
def fsCalls (t : Trace) : Nat := t.countP isFsAccess

/-- Number of `updateApplication` calls at or after the first
`createApplicationProtection` call: zero means every update call
preceded the job creation. -/
def updatesFromCreate (t : Trace) : Nat :=
  updateCalls (t.dropWhile fun e => !isCreateProtection e)

instance exceptDecEq {ε α : Type} [DecidableEq ε] [DecidableEq α] :
    DecidableEq (Except ε α) := fun a b =>
  match a, b with
  | Except.ok x, Except.ok y =>
    if h : x = y then isTrue (by rw [h])
    else isFalse (by intro hc; cases hc; exact h rfl)
  | Except.error x, Except.error y =>
    if h : x = y then isTrue (by rw [h])
    else isFalse (by intro hc; cases hc; exact h rfl)
  | Except.ok _, Except.error _ => isFalse (by intro hc; cases hc)
  | Except.error _, Except.ok _ => isFalse (by intro hc; cases hc)

instance {α : Type} [DecidableEq α] : DecidableEq (M α) :=
  inferInstanceAs (DecidableEq (Except Err α × Trace))

/-- A non-terminal snapshot used by the polling witnesses. -/
def runningSnap : ProtSnapshot :=
  { errors := none, protection := { state := "running" } }

/-- A canceled snapshot used by the polling witnesses. -/
def canceledSnap : ProtSnapshot :=
  { errors := none, protection := { state := "canceled" } }

/-- An errored snapshot used by the polling counterexample. -/
def erroredSnap : ProtSnapshot :=
  { errors := none, protection := { state := "errored", errorMessage := "boom" } }

/-- A clean finished snapshot used by several environments. -/
def finishedCleanSnap : ProtSnapshot :=
  { errors := none, protection := { state := "finished" } }
/-- The configuration of the C1 scenario: required fields supplied,
sources skipped, the bail option set to b. -/
def c1Cfg (b : Bool) : Config :=
  { applicationId := some "app1", filesDest := some "dist",
    skipSources := true, bail := some b }

/-- The environment of the C1 scenario: polling yields one snapshot
carrying the given protection. -/
def c1Env (p : Protection) : Env :=
  { createdProtectionId := "pid1"
    protSnapshots := [{ errors := none, protection := p }] }

/-- A finished protection with one per-source error and bail true. -/
def c1ProtBail : Protection :=
  { state := "finished", bail := true,
    sources := [{ filename := "a.js", errorMessages := ["x"] }] }

/-- A finished protection with one per-source error and bail false. -/
def c1ProtNoBail : Protection :=
  { state := "finished", bail := false,
    sources := [{ filename := "a.js", errorMessages := ["x"] }] }

/-- The configuration family of the C3 scenario: only the fields involved
in the parameter-update decision vary. -/
def c3Cfg (ps : Option ParamsSpec) (ats ls brs : Option (List String))
    (aso urro sm : Option Bool) : Config :=
  { applicationId := some "app1", filesDest := some "dist", skipSources := true,
    params := ps, applicationTypes := ats, languageSpecifications := ls,
    browsers := brs, areSubscribersOrdered := aso,
    useRecommendedOrder := urro, sourceMaps := sm }

/-- The environment of the C3 scenario: one clean finished snapshot. -/
def c3Env : Env :=
  { createdProtectionId := "pid1", protSnapshots := [finishedCleanSnap] }

/-- The environment of the C5 scenario: the profiling probe returns a
run in state READY. -/
def c5Env (pid : String) : Env :=
  { profilingFetch := Except.ok { id := pid, state := "READY" } }

/-- The configuration of the C7 scenario. -/
def c7Cfg : Config := { applicationId := some "app1", filesDest := some "dist" }

/-- An environment whose profiling probe rejects with the given status. -/
def c7EnvErr (sc : Nat) : Env := { profilingFetch := Except.error sc }

/-- An environment whose profiling probe rejects with 404 and which lets
the protection workflow finish cleanly. -/
def c7Env404 : Env :=
  { profilingFetch := Except.error 404
    createdProtectionId := "pid1"
    protSnapshots := [finishedCleanSnap] }

/-- The environment of the C9 scenario: only the archive encoder varies. -/
def c9Env (enc : ArchiveHandle → String) : Env := { generateBase64 := enc }

/-- The protection of the C10 scenario: finished, one per-source error,
and the bail flag carried on the snapshot set to sb. -/
def c10Prot (sb : Bool) : Protection :=
  { state := "finished", bail := sb,
    sources := [{ filename := "a.js", errorMessages := ["x"] }] }

/-- The environment of the C10 scenario. -/
def c10Env (sb : Bool) : Env :=
  { createdProtectionId := "pid1"
    protSnapshots := [{ errors := none, protection := c10Prot sb }] }

/-- The configuration family of the C10 scenario: only the configured
bail option varies. -/
def c10Cfg (b : Option Bool) : Config :=
  { applicationId := some "app1", filesDest := some "dist",
    skipSources := true, bail := b }
/-
Simp support for the effect monad, the counters and the truthiness
helpers, followed by the claim theorems.
-/

@[simp] theorem monad_bind_eq {α β : Type} (m : M α) (f : α → M β) :
    m >>= f = M.bind m f := rfl

@[simp] theorem monad_pure_eq {α : Type} (a : α) :
    (pure a : M α) = M.pure a := rfl

@[simp] theorem pure_def {α : Type} (a : α) :
    (M.pure a : M α) = (Except.ok a, []) := rfl

@[simp] theorem bind_ok {α β : Type} (a : α) (t : Trace) (f : α → M β) :
    M.bind (Except.ok a, t) f = ((f a).1, t ++ (f a).2) := by
  unfold M.bind
  rcases h : f a with ⟨r, t'⟩
  simp [h]

@[simp] theorem bind_err {α β : Type} (e : Err) (t : Trace) (f : α → M β) :
    M.bind (Except.error e, t) f = (Except.error e, t) := rfl

@[simp] theorem emit_def (e : Ev) : emit e = (Except.ok (), [e]) := rfl

@[simp] theorem emitAll_def (es : Trace) : emitAll es = (Except.ok (), es) := rfl

@[simp] theorem throwE_def {α : Type} (e : Err) :
    (throwE e : M α) = (Except.error e, []) := rfl

@[simp] theorem strTruthy_none : strTruthy none = false := rfl

@[simp] theorem strTruthy_some (s : String) : strTruthy (some s) = (s != "") := rfl

@[simp] theorem downloads_nil : downloads [] = 0 := rfl

@[simp] theorem downloads_cons (e : Ev) (t : Trace) :
    downloads (e :: t) = downloads t + (if isDownload e then 1 else 0) :=
  List.countP_cons isDownload e t

@[simp] theorem downloads_append (a b : Trace) :
    downloads (a ++ b) = downloads a + downloads b :=
  List.countP_append isDownload a b

@[simp] theorem downloads_growth_ite (c : Prop) [Decidable c] :
    downloads (if c then [Ev.outGrowthWarning] else []) = 0 := by
  split <;> rfl

@[simp] theorem downloads_deprecations (ds : List Deprecation) :
    downloads (deprecationEvents ds) = 0 := by
  rw [downloads, List.countP_eq_zero]
  intro e he
  rw [deprecationEvents] at he
  rcases List.mem_filterMap.mp he with ⟨d, -, hd⟩
  split at hd
  · cases hd
    simp [isDownload]
  · split at hd
    · cases hd
      simp [isDownload]
    · cases hd

@[simp] theorem downloads_map_nonfatal (es : List SourceError) :
    downloads (es.map Ev.outNonFatal) = 0 := by
  rw [downloads, List.countP_eq_zero]
  intro e he
  rcases List.mem_map.mp he with ⟨x, -, rfl⟩
  simp [isDownload]

@[simp] theorem updateCalls_nil : updateCalls [] = 0 := rfl

@[simp] theorem updateCalls_cons (e : Ev) (t : Trace) :
    updateCalls (e :: t) = updateCalls t + (if isUpdateApplication e then 1 else 0) :=
  List.countP_cons isUpdateApplication e t

@[simp] theorem updateCalls_append (a b : Trace) :
    updateCalls (a ++ b) = updateCalls a + updateCalls b :=
  List.countP_append isUpdateApplication a b

@[simp] theorem createCalls_nil : createCalls [] = 0 := rfl

@[simp] theorem createCalls_cons (e : Ev) (t : Trace) :
    createCalls (e :: t) = createCalls t + (if isCreateProtection e then 1 else 0) :=
  List.countP_cons isCreateProtection e t

@[simp] theorem createCalls_append (a b : Trace) :
    createCalls (a ++ b) = createCalls a + createCalls b :=
  List.countP_append isCreateProtection a b

/-- Skipping a block of non-terminal error-free snapshots leaves the
polling result unchanged and adds exactly one 500 ms delay per skipped
snapshot (protection polling). -/
theorem pollProtection_skip (pre rest : List ProtSnapshot)
    (h : ∀ s ∈ pre, s.errors = none ∧ nonTerminalState s.protection.state = true) :
    (pollProtection (pre ++ rest)).1 = (pollProtection rest).1 ∧
    sleepCalls (pollProtection (pre ++ rest)).2 =
      pre.length + sleepCalls (pollProtection rest).2 ∧
    sleep500Calls (pollProtection (pre ++ rest)).2 =
      pre.length + sleep500Calls (pollProtection rest).2 := by
  induction pre with
  | nil => simp
  | cons s pre ih =>
    obtain ⟨he, hnt⟩ := h s (List.mem_cons_self s pre)
    obtain ⟨ih1, ih2, ih3⟩ := ih fun x hx => h x (List.mem_cons_of_mem s hx)
    simp only [List.cons_append, pollProtection, he, hnt, if_true, emit_def, bind_ok]
    refine ⟨ih1, ?_, ?_⟩
    · simp [sleepCalls, List.countP_cons, List.countP_append, isSleep] at ih2 ⊢
      omega
    · simp [sleep500Calls, List.countP_cons, List.countP_append, isSleep500] at ih3 ⊢
      omega

/-- Skipping a block of non-terminal snapshots leaves the polling result
unchanged and adds exactly one 500 ms delay per skipped snapshot
(instrumentation polling). -/
theorem pollInstrumentation_skip (pre rest : List InstrSnapshot)
    (h : ∀ s ∈ pre, nonTerminalInstrState s.data.state = true) :
    (pollInstrumentation (pre ++ rest)).1 = (pollInstrumentation rest).1 ∧
    sleepCalls (pollInstrumentation (pre ++ rest)).2 =
      pre.length + sleepCalls (pollInstrumentation rest).2 ∧
    sleep500Calls (pollInstrumentation (pre ++ rest)).2 =
      pre.length + sleep500Calls (pollInstrumentation rest).2 := by
  induction pre with
  | nil => simp
  | cons s pre ih =>
    have hnt := h s (List.mem_cons_self s pre)
    simp only [nonTerminalInstrState, Bool.and_eq_true, bne_iff_ne, ne_eq] at hnt
    obtain ⟨⟨h1, h2⟩, h3⟩ := hnt
    obtain ⟨ih1, ih2, ih3⟩ := ih fun x hx => h x (List.mem_cons_of_mem s hx)
    simp only [List.cons_append, pollInstrumentation, h1, h2, h3, beq_iff_eq,
      if_false, emit_def, bind_ok, if_neg]
    refine ⟨ih1, ?_, ?_⟩
    · simp [sleepCalls, List.countP_cons, List.countP_append, isSleep] at ih2 ⊢
      omega
    · simp [sleep500Calls, List.countP_cons, List.countP_append, isSleep500] at ih3 ⊢
      omega

/-- The update-call condition of lines 352-358 in terms of the
configuration: nonempty parameters, application types, language
specifications, browsers, or an explicit subscriber ordering -
`sourceMaps` and `useRecommendedOrder` are not part of it. -/
theorem shouldUpdate_buildUpdateData (cfg : Config) :
    shouldUpdate (buildUpdateData cfg) =
      (paramsTruthy cfg.params || cfg.applicationTypes.isSome ||
        cfg.languageSpecifications.isSome || cfg.browsers.isSome ||
        cfg.areSubscribersOrdered.isSome) := by
  cases h : paramsTruthy cfg.params <;> cases hA : cfg.areSubscribersOrdered <;>
    simp [shouldUpdate, buildUpdateData, h, hA]

/-- C1: when the polled protection is finished with at least one
aggregated per-source error, bail true prints all errors in one report
and fails with the job failure without any download call; bail false
reports each error as a non-fatal warning, issues exactly one download
call and returns the protection id. -/
theorem C1_bail_policy (p : Protection) (hst : p.state = "finished")
    (hne : 0 < (sourcesErrors p).length) :
    (p.bail = true →
      (protectAndDownload (c1Cfg true) false (c1Env p)).1 =
        Except.error Err.bailFailed ∧
      Ev.outSourcesErrors (sourcesErrors p) ∈
        (protectAndDownload (c1Cfg true) false (c1Env p)).2 ∧
      downloads (protectAndDownload (c1Cfg true) false (c1Env p)).2 = 0) ∧
    (p.bail = false →
      (protectAndDownload (c1Cfg false) false (c1Env p)).1 = Except.ok "pid1" ∧
      downloads (protectAndDownload (c1Cfg false) false (c1Env p)).2 = 1 ∧
      ∀ e ∈ sourcesErrors p,
        Ev.outNonFatal e ∈ (protectAndDownload (c1Cfg false) false (c1Env p)).2) := by
  constructor <;> intro hb <;> cases hg : p.growthWarning <;> refine ⟨?_, ?_, ?_⟩ <;>
    simp [protectAndDownload, c1Cfg, c1Env, pollProtection, errorHandler,
      buildUpdateData, shouldUpdate, fetchProfilingCaught, nonTerminalState,
      isDownload, paramsTruthy, hst, hb, hne, hg] <;>
    exact fun e he => Or.inr he

/-- C1 witness: a finished protection carrying one source error, under
each bail value. -/
theorem C1_bail_policy_witness :
    (protectAndDownload (c1Cfg true) false (c1Env c1ProtBail)).1 =
      Except.error Err.bailFailed ∧
    downloads (protectAndDownload (c1Cfg true) false (c1Env c1ProtBail)).2 = 0 ∧
    (protectAndDownload (c1Cfg false) false (c1Env c1ProtNoBail)).1 =
      Except.ok "pid1" ∧
    downloads (protectAndDownload (c1Cfg false) false (c1Env c1ProtNoBail)).2 = 1 := by
  have hT := (C1_bail_policy c1ProtBail rfl (by decide)).1 rfl
  have hF := (C1_bail_policy c1ProtNoBail rfl (by decide)).2 rfl
  exact ⟨hT.1, hT.2.2, hF.1, hF.2.1⟩

/-- C2 amended: the polling step keeps polling on any state outside the
three terminal ones, raises the cancellation on canceled, and RETURNS the
protection for both errored and finished; the failure for an errored
protection is raised afterwards by protectAndDownload, not by the
polling step. -/
theorem C2_poll_classification (s : ProtSnapshot) (rest : List ProtSnapshot)
    (hne : s.errors = none) :
    (nonTerminalState s.protection.state = true →
      pollProtection (s :: rest) =
        ((pollProtection rest).1,
          Ev.getApplicationProtection :: Ev.sleep 500 :: (pollProtection rest).2)) ∧
    (s.protection.state = "canceled" →
      pollProtection (s :: rest) =
        (Except.error Err.protectionCanceled, [Ev.getApplicationProtection])) ∧
    (s.protection.state = "errored" →
      pollProtection (s :: rest) =
        (Except.ok s.protection, [Ev.getApplicationProtection])) ∧
    (s.protection.state = "finished" →
      pollProtection (s :: rest) =
        (Except.ok s.protection, [Ev.getApplicationProtection])) := by
  refine ⟨?_, ?_, ?_, ?_⟩ <;> intro h
  · simp [pollProtection, hne, h]
  · simp [pollProtection, hne, h, nonTerminalState]
  · simp [pollProtection, hne, h, nonTerminalState]
  · simp [pollProtection, hne, h, nonTerminalState]

/-- C2 witness: the four classification clauses at concrete snapshots. -/
theorem C2_poll_classification_witness :
    pollProtection [runningSnap] =
      (Except.error Err.noMoreSnapshots, [Ev.getApplicationProtection, Ev.sleep 500]) ∧
    pollProtection [canceledSnap] =
      (Except.error Err.protectionCanceled, [Ev.getApplicationProtection]) ∧
    pollProtection [erroredSnap] =
      (Except.ok erroredSnap.protection, [Ev.getApplicationProtection]) ∧
    pollProtection [finishedCleanSnap] =
      (Except.ok finishedCleanSnap.protection, [Ev.getApplicationProtection]) := by
  refine ⟨?_, ?_, ?_, ?_⟩
  · exact ((C2_poll_classification runningSnap [] rfl).1 (by decide)).trans (by decide)
  · exact (C2_poll_classification canceledSnap [] rfl).2.1 rfl
  · exact (C2_poll_classification erroredSnap [] rfl).2.2.1 rfl
  · exact (C2_poll_classification finishedCleanSnap [] rfl).2.2.2 rfl

/-- C2 counterexample: a snapshot in state errored makes the polling step
RETURN the protection as a success instead of failing there, against the
claim that errored maps to FAILED at the polling step. -/
theorem C2_counterexample_errored :
    pollProtection [erroredSnap] =
      (Except.ok erroredSnap.protection, [Ev.getApplicationProtection]) ∧
    erroredSnap.protection.state = "errored" := by decide

/-- C3 amended: exactly one updateApplication call is issued, before the
createApplicationProtection call, precisely when nonempty transformation
parameters, application types, language specifications, browser targets
or an explicit subscriber ordering are supplied; the sourceMaps flag is
NOT part of the trigger, so supplying only sourceMaps issues no update
call. -/
theorem C3_parameter_update (ps : Option ParamsSpec)
    (ats ls brs : Option (List String)) (aso urro sm : Option Bool) :
    (protectAndDownload (c3Cfg ps ats ls brs aso urro sm) false c3Env).1 =
      Except.ok "pid1" ∧
    updateCalls (protectAndDownload (c3Cfg ps ats ls brs aso urro sm) false c3Env).2 =
      (if paramsTruthy ps || ats.isSome || ls.isSome || brs.isSome || aso.isSome
        then 1 else 0) ∧
    createCalls (protectAndDownload (c3Cfg ps ats ls brs aso urro sm) false c3Env).2 = 1 ∧
    updatesFromCreate
      (protectAndDownload (c3Cfg ps ats ls brs aso urro sm) false c3Env).2 = 0 := by
  have hsu := shouldUpdate_buildUpdateData (c3Cfg ps ats ls brs aso urro sm)
  simp only [c3Cfg] at hsu
  cases htr : (paramsTruthy ps || ats.isSome || ls.isSome || brs.isSome || aso.isSome)
  · rw [htr] at hsu
    have hrun : protectAndDownload (c3Cfg ps ats ls brs aso urro sm) false c3Env =
        (Except.ok "pid1",
          [Ev.outLog "Update source files SKIPPED",
           Ev.createApplicationProtection
             { bail := true, randomizationSeed := none, tolerateMinification := none,
               source := none, inputSymbolTable := none,
               update := buildUpdateData (c3Cfg ps ats ls brs aso urro sm) },
           Ev.getApplicationProtection, Ev.download, Ev.unzipFiles,
           Ev.outLog "pid1"]) := by
      simp [protectAndDownload, c3Cfg, c3Env, finishedCleanSnap, pollProtection,
        errorHandler, fetchProfilingCaught, nonTerminalState, sourcesErrors,
        deprecationEvents, hsu]
    rw [hrun]
    refine ⟨rfl, ?_, ?_, ?_⟩ <;>
      simp [htr, updatesFromCreate, isUpdateApplication, isCreateProtection,
        List.dropWhile]
  · rw [htr] at hsu
    have hrun : protectAndDownload (c3Cfg ps ats ls brs aso urro sm) false c3Env =
        (Except.ok "pid1",
          [Ev.outLog "Update source files SKIPPED",
           Ev.updateApplication (buildUpdateData (c3Cfg ps ats ls brs aso urro sm)),
           Ev.createApplicationProtection
             { bail := true, randomizationSeed := none, tolerateMinification := none,
               source := none, inputSymbolTable := none,
               update := buildUpdateData (c3Cfg ps ats ls brs aso urro sm) },
           Ev.getApplicationProtection, Ev.download, Ev.unzipFiles,
           Ev.outLog "pid1"]) := by
      simp [protectAndDownload, c3Cfg, c3Env, finishedCleanSnap, pollProtection,
        errorHandler, fetchProfilingCaught, nonTerminalState, sourcesErrors,
        deprecationEvents, hsu]
    rw [hrun]
    refine ⟨rfl, ?_, ?_, ?_⟩ <;>
      simp [htr, updatesFromCreate, isUpdateApplication, isCreateProtection,
        List.dropWhile]

/-- C3 counterexample: supplying only the sourceMaps flag issues ZERO
updateApplication calls while the workflow still succeeds, against the
claim that the sourceMaps flag alone triggers the update call. -/
theorem C3_counterexample_sourceMaps_alone :
    (c3Cfg none none none none none none (some true)).sourceMaps = some true ∧
    updateCalls (protectAndDownload
      (c3Cfg none none none none none none (some true)) false c3Env).2 = 0 ∧
    (protectAndDownload (c3Cfg none none none none none none (some true))
      false c3Env).1 = Except.ok "pid1" := by decide

/-- C4: a configuration without applicationId, or without both filesDest
and a destination callback, makes both workflows fail with the
corresponding required-field error and an EMPTY trace, so no network
call is recorded.  When both fields are missing the applicationId check
fires first, which still is a configuration error before any call. -/
theorem C4_config_errors (cfg : Config) (dcb : Bool) (env : Env) :
    (cfg.applicationId = none →
      protectAndDownload cfg dcb env =
        (Except.error (Err.required "applicationId"), []) ∧
      instrumentAndDownload cfg dcb env =
        (Except.error (Err.required "applicationId"), [])) ∧
    (cfg.filesDest = none → dcb = false →
      (protectAndDownload cfg dcb env =
          (Except.error (Err.required "applicationId"), []) ∨
        protectAndDownload cfg dcb env =
          (Except.error (Err.required "filesDest"), [])) ∧
      (instrumentAndDownload cfg dcb env =
          (Except.error (Err.required "applicationId"), []) ∨
        instrumentAndDownload cfg dcb env =
          (Except.error (Err.required "filesDest"), []))) := by
  constructor
  · intro h
    constructor
    · simp [protectAndDownload, h]
    · simp [instrumentAndDownload, h]
  · intro h2 h3
    subst h3
    cases hs : strTruthy cfg.applicationId
    · constructor
      · left; simp [protectAndDownload, hs]
      · left; simp [instrumentAndDownload, hs]
    · constructor
      · right; simp [protectAndDownload, hs, h2]
      · right; simp [instrumentAndDownload, hs, h2]

/-- C4 witness: concrete configurations missing each required field. -/
theorem C4_config_errors_witness :
    protectAndDownload {} false {} =
      (Except.error (Err.required "applicationId"), []) ∧
    instrumentAndDownload {} false {} =
      (Except.error (Err.required "applicationId"), []) ∧
    (protectAndDownload { applicationId := some "a" } false {} =
        (Except.error (Err.required "applicationId"), []) ∨
      protectAndDownload { applicationId := some "a" } false {} =
        (Except.error (Err.required "filesDest"), [])) := by
  have h := C4_config_errors {} false {}
  have h2 := C4_config_errors { applicationId := some "a" } false {}
  exact ⟨(h.1 rfl).1, (h.1 rfl).2, (h2.2 rfl rfl).1⟩

/-- C5: with an existing READY profiling run fetched and new sources
(inline or via a nonempty filesSrc) supplied without removeProfilingData
and without skipSources, protectAndDownload fails with the
ready-profiling validation error right after the probe: the trace holds
only the probe, so neither the source-removal call nor the source-upload
call was issued. -/
theorem C5_ready_profiling_blocks (ss : List SourceItem) (pid : String)
    (f : String) (fs : List String) :
    protectAndDownload
        { applicationId := some "app1", filesDest := some "dist", sources := some ss }
        false (c5Env pid) =
      (Except.error Err.readyProfiling, [Ev.getProfilingRun]) ∧
    protectAndDownload
        { applicationId := some "app1", filesDest := some "dist", filesSrc := some (f :: fs) }
        false (c5Env pid) =
      (Except.error Err.readyProfiling, [Ev.getProfilingRun]) ∧
    removeSourceCalls
      (protectAndDownload
        { applicationId := some "app1", filesDest := some "dist", sources := some ss }
        false (c5Env pid)).2 = 0 ∧
    addSourceCalls
      (protectAndDownload
        { applicationId := some "app1", filesDest := some "dist", sources := some ss }
        false (c5Env pid)).2 = 0 := by
  refine ⟨?_, ?_, ?_, ?_⟩
  · simp [protectAndDownload, fetchProfilingCaught, c5Env, updateApplicationSources,
      profilingReady, filesSrcNonempty]
  · simp [protectAndDownload, fetchProfilingCaught, c5Env, updateApplicationSources,
      profilingReady, filesSrcNonempty]
  · simp [protectAndDownload, fetchProfilingCaught, c5Env, updateApplicationSources,
      profilingReady, filesSrcNonempty, removeSourceCalls, isRemoveSource]
  · simp [protectAndDownload, fetchProfilingCaught, c5Env, updateApplicationSources,
      profilingReady, filesSrcNonempty, addSourceCalls, isAddSource]

/-- C6: the polling loops perform one fixed 500 ms delayed retry per
non-terminal snapshot, for protection and instrumentation alike; a
terminal finished snapshot returns the result, a terminal canceled
(DELETED for instrumentation) snapshot raises the cancellation. -/
theorem C6_poll_delays (pre : List ProtSnapshot)
    (h : ∀ s ∈ pre, s.errors = none ∧ nonTerminalState s.protection.state = true)
    (pfin pcan : Protection)
    (hf : pfin.state = "finished") (hc : pcan.state = "canceled")
    (preI : List InstrSnapshot)
    (hI : ∀ s ∈ preI, nonTerminalInstrState s.data.state = true)
    (dfin ddel : InstrData)
    (hdf : dfin.state = "FINISHED_INSTRUMENTATION") (hdd : ddel.state = "DELETED") :
    ((pollProtection (pre ++ [{ errors := none, protection := pfin }])).1 =
        Except.ok pfin ∧
      sleepCalls (pollProtection (pre ++ [{ errors := none, protection := pfin }])).2 =
        pre.length ∧
      sleep500Calls (pollProtection (pre ++ [{ errors := none, protection := pfin }])).2 =
        pre.length) ∧
    ((pollProtection (pre ++ [{ errors := none, protection := pcan }])).1 =
        Except.error Err.protectionCanceled ∧
      sleepCalls (pollProtection (pre ++ [{ errors := none, protection := pcan }])).2 =
        pre.length ∧
      sleep500Calls (pollProtection (pre ++ [{ errors := none, protection := pcan }])).2 =
        pre.length) ∧
    ((pollInstrumentation (preI ++ [{ data := dfin }])).1 =
        Except.ok { data := dfin } ∧
      sleepCalls (pollInstrumentation (preI ++ [{ data := dfin }])).2 = preI.length ∧
      sleep500Calls (pollInstrumentation (preI ++ [{ data := dfin }])).2 = preI.length) ∧
    ((pollInstrumentation (preI ++ [{ data := ddel }])).1 =
        Except.error Err.protectionCanceled ∧
      sleepCalls (pollInstrumentation (preI ++ [{ data := ddel }])).2 = preI.length ∧
      sleep500Calls (pollInstrumentation (preI ++ [{ data := ddel }])).2 = preI.length) := by
  obtain ⟨a1, a2, a3⟩ :=
    pollProtection_skip pre [{ errors := none, protection := pfin }] h
  obtain ⟨b1, b2, b3⟩ :=
    pollProtection_skip pre [{ errors := none, protection := pcan }] h
  obtain ⟨c1, c2, c3⟩ :=
    pollInstrumentation_skip preI [{ data := dfin }] hI
  obtain ⟨d1, d2, d3⟩ :=
    pollInstrumentation_skip preI [{ data := ddel }] hI
  refine ⟨⟨?_, ?_, ?_⟩, ⟨?_, ?_, ?_⟩, ⟨?_, ?_, ?_⟩, ⟨?_, ?_, ?_⟩⟩
  · rw [a1]; simp [pollProtection, nonTerminalState, hf]
  · rw [a2]; simp [pollProtection, nonTerminalState, hf, sleepCalls, isSleep]
  · rw [a3]; simp [pollProtection, nonTerminalState, hf, sleep500Calls, isSleep500]
  · rw [b1]; simp [pollProtection, nonTerminalState, hc]
  · rw [b2]; simp [pollProtection, nonTerminalState, hc, sleepCalls, isSleep]
  · rw [b3]; simp [pollProtection, nonTerminalState, hc, sleep500Calls, isSleep500]
  · rw [c1]; simp [pollInstrumentation, hdf]
  · rw [c2]; simp [pollInstrumentation, hdf, sleepCalls, isSleep]
  · rw [c3]; simp [pollInstrumentation, hdf, sleep500Calls, isSleep500]
  · rw [d1]; simp [pollInstrumentation, hdd]
  · rw [d2]; simp [pollInstrumentation, hdd, sleepCalls, isSleep]
  · rw [d3]; simp [pollInstrumentation, hdd, sleep500Calls, isSleep500]

/-- C6 witness: fetched states [running, running, finished] give exactly
two 500 ms retries and then the result; [running, canceled] fails with
the cancellation after exactly one retry. -/
theorem C6_poll_delays_witness :
    (pollProtection [runningSnap, runningSnap, finishedCleanSnap]).1 =
      Except.ok finishedCleanSnap.protection ∧
    sleep500Calls (pollProtection [runningSnap, runningSnap, finishedCleanSnap]).2 = 2 ∧
    (pollProtection [runningSnap, canceledSnap]).1 =
      Except.error Err.protectionCanceled ∧
    sleep500Calls (pollProtection [runningSnap, canceledSnap]).2 = 1 := by
  have h2 := C6_poll_delays [runningSnap, runningSnap]
    (by intro s hs; fin_cases hs <;> exact ⟨rfl, by decide⟩)
    finishedCleanSnap.protection canceledSnap.protection rfl rfl
    [] (by intro s hs; cases hs)
    { state := "FINISHED_INSTRUMENTATION" } { state := "DELETED" } rfl rfl
  have h1 := C6_poll_delays [runningSnap]
    (by intro s hs; fin_cases hs <;> exact ⟨rfl, by decide⟩)
    finishedCleanSnap.protection canceledSnap.protection rfl rfl
    [] (by intro s hs; cases hs)
    { state := "FINISHED_INSTRUMENTATION" } { state := "DELETED" } rfl rfl
  exact ⟨h2.1.1, h2.1.2.2, h1.2.1.1, h1.2.1.2.2⟩

/-- C7 amended: a non-404 fetch error when probing for an existing
profiling run is re-raised in all three places; a 404 is treated as
no-run-exists, which lets protectAndDownload and startInstrumentation
proceed, while setProfilingState then aborts with its own
no-active-profiling error. -/
theorem C7_profiling_404_carveout (sc : Nat) (hsc : sc ≠ 404) :
    protectAndDownload c7Cfg false (c7EnvErr sc) =
      (Except.error (Err.fetch sc), [Ev.getProfilingRun]) ∧
    startInstrumentation (c7EnvErr sc) =
      (Except.error (Err.fetch sc), [Ev.getProfilingRun]) ∧
    setProfilingState c7Cfg "ON" "activated" (c7EnvErr sc) =
      (Except.error (Err.fetch sc), [Ev.getProfilingRun]) ∧
    (protectAndDownload c7Cfg false c7Env404).1 = Except.ok "pid1" ∧
    startInstrumentation c7Env404 =
      (Except.ok ({} : Res), [Ev.getProfilingRun, Ev.postProfilingRun]) ∧
    setProfilingState c7Cfg "ON" "activated" c7Env404 =
      (Except.error Err.noActiveProfiling, [Ev.getProfilingRun]) := by
  refine ⟨?_, ?_, ?_, ?_, ?_, ?_⟩
  · simp [protectAndDownload, fetchProfilingCaught, c7Cfg, c7EnvErr, hsc]
  · simp [startInstrumentation, fetchProfilingCaught, c7EnvErr, hsc]
  · simp [setProfilingState, fetchProfilingCaught, c7Cfg, c7EnvErr, hsc]
  · decide
  · decide
  · decide

/-- C7 witness at status code 500. -/
theorem C7_profiling_404_carveout_witness :
    protectAndDownload c7Cfg false (c7EnvErr 500) =
      (Except.error (Err.fetch 500), [Ev.getProfilingRun]) ∧
    startInstrumentation (c7EnvErr 500) =
      (Except.error (Err.fetch 500), [Ev.getProfilingRun]) ∧
    setProfilingState c7Cfg "ON" "activated" (c7EnvErr 500) =
      (Except.error (Err.fetch 500), [Ev.getProfilingRun]) ∧
    setProfilingState c7Cfg "ON" "activated" c7Env404 =
      (Except.error Err.noActiveProfiling, [Ev.getProfilingRun]) := by
  have h := C7_profiling_404_carveout 500 (by decide)
  exact ⟨h.1, h.2.1, h.2.2.1, h.2.2.2.2.2⟩

/-- C7 counterexample: a 404 on the profiling probe DOES abort
setProfilingState - the swallowed 404 leaves no run and the operation
raises the no-active-profiling error, against the claim that a 404
never aborts the operation. -/
theorem C7_counterexample_setProfilingState_404 :
    setProfilingState c7Cfg "ON" "activated" c7Env404 =
      (Except.error Err.noActiveProfiling, [Ev.getProfilingRun]) := by decide

/-- C8: requesting the state the profiling run is already in performs no
patch, reports and returns without error; otherwise exactly one patch
carrying the requested state is issued. -/
theorem C8_setProfilingState (p : Profiling) (st lbl : String) :
    (p.state = st →
      setProfilingState {} st lbl { profilingFetch := Except.ok p } =
        (Except.ok (), [Ev.getProfilingRun, Ev.outAlready lbl]) ∧
      patchCalls (setProfilingState {} st lbl { profilingFetch := Except.ok p }).2 = 0) ∧
    (p.state ≠ st →
      setProfilingState {} st lbl { profilingFetch := Except.ok p } =
        (Except.ok (),
          [Ev.getProfilingRun, Ev.patchProfilingRun st, Ev.outSet lbl]) ∧
      patchCalls (setProfilingState {} st lbl { profilingFetch := Except.ok p }).2 = 1) := by
  constructor
  · intro h
    constructor
    · simp [setProfilingState, fetchProfilingCaught, h]
    · simp [setProfilingState, fetchProfilingCaught, h, patchCalls, isPatchProfiling]
  · intro h
    constructor
    · simp [setProfilingState, fetchProfilingCaught, h]
    · simp [setProfilingState, fetchProfilingCaught, h, patchCalls, isPatchProfiling]

/-- C8 witness at a run in state ON. -/
theorem C8_setProfilingState_witness :
    setProfilingState {} "ON" "activated"
        { profilingFetch := Except.ok { id := "i1", state := "ON" } } =
      (Except.ok (), [Ev.getProfilingRun, Ev.outAlready "activated"]) ∧
    setProfilingState {} "OFF" "deactivated"
        { profilingFetch := Except.ok { id := "i1", state := "ON" } } =
      (Except.ok (),
        [Ev.getProfilingRun, Ev.patchProfilingRun "OFF", Ev.outSet "deactivated"]) := by
  exact ⟨((C8_setProfilingState { id := "i1", state := "ON" } "ON" "activated").1 rfl).1,
    ((C8_setProfilingState { id := "i1", state := "ON" } "OFF" "deactivated").2
      (by decide)).1⟩

/-- C9: with neither inline sources nor a nonempty filesSrc the call is a
no-op with an empty trace (no upload, no removal); with inline sources
the archive receives exactly the given pairs verbatim, no file-system
access occurs, and the uploaded bundle is exactly the base64-encoded
archive bytes wrapped as application.zip with extension zip. -/
theorem C9_updateApplicationSources (enc : ArchiveHandle → String)
    (cwd : Option String) (ap : Option Profiling) (ss : List SourceItem) :
    updateApplicationSources (c9Env enc)
        { sources := none, filesSrc := none, cwd := cwd, appProfiling := ap } =
      (Except.ok none, []) ∧
    updateApplicationSources (c9Env enc)
        { sources := none, filesSrc := some [], cwd := cwd, appProfiling := ap } =
      (Except.ok none, []) ∧
    updateApplicationSources (c9Env enc)
        { sources := some ss, filesSrc := none, cwd := cwd, appProfiling := none } =
      (Except.ok (some
          { content := enc (ArchiveHandle.ofSources ss)
            filename := "application.zip"
            extension := "zip" }),
        [Ev.removeSource,
         Ev.addSource
          { content := enc (ArchiveHandle.ofSources ss)
            filename := "application.zip"
            extension := "zip" }]) ∧
    fsCalls (updateApplicationSources (c9Env enc)
        { sources := some ss, filesSrc := none, cwd := cwd, appProfiling := none }).2 = 0 := by
  refine ⟨?_, ?_, ?_, ?_⟩
  · simp [updateApplicationSources, profilingReady, filesSrcNonempty]
  · simp [updateApplicationSources, profilingReady, filesSrcNonempty]
  · simp [updateApplicationSources, profilingReady, filesSrcNonempty, errorHandler, c9Env]
  · simp [updateApplicationSources, profilingReady, filesSrcNonempty, errorHandler, c9Env,
      fsCalls, isFsAccess]

/-- C10: with a finished protection carrying one source error, whether
the workflow raises or merely warns depends only on the bail flag
carried on the polled snapshot - configurations differing only in their
bail option produce the same outcome - while the configured bail value
reaches the job-creation options of the createApplicationProtection
call. -/
theorem C10_snapshot_bail_decides (b1 b2 : Option Bool) (sb : Bool) :
    (protectAndDownload (c10Cfg b1) false (c10Env sb)).1 =
      (protectAndDownload (c10Cfg b2) false (c10Env sb)).1 ∧
    (protectAndDownload (c10Cfg b1) false (c10Env sb)).1 =
      (if sb then Except.error Err.bailFailed else Except.ok "pid1") ∧
    Ev.createApplicationProtection
        { bail := b1.getD true
          randomizationSeed := none
          tolerateMinification := none
          source := none
          inputSymbolTable := none
          update := buildUpdateData (c10Cfg b1) } ∈
      (protectAndDownload (c10Cfg b1) false (c10Env sb)).2 := by
  cases sb <;>
    simp [protectAndDownload, c10Cfg, c10Env, c10Prot, pollProtection, errorHandler,
      buildUpdateData, shouldUpdate, fetchProfilingCaught, nonTerminalState,
      sourcesErrors, paramsTruthy, paramsNonempty, paramsIsArr, normalizeParameters]

end Jscrambler
